import Mathlib

/-!
Shallow embedding of src/main.go: a rate-limited StackExchange search client
that pages through results, keeps only unanswered questions and maintains a
top-5 list ordered by view count.

The network, the gzip layer and the JSON decoder are the environment of a run:
each page request is given an abstract outcome (the network call fails, or it
completes with a status code and a body that either fails to decompress, fails
to decode, or decodes to a QuestionResponse). Everything after that point is
translated directly from the Go source.
-/

/-- Items (src/main.go lines 24-30): one question of a response page. -/
structure Items where
  isAnswered : Bool
  viewCount : Int
  creationDate : Int
  questionId : Int
  link : String
deriving DecidableEq

/-- QuestionResponse (src/main.go lines 17-22): one decoded page of the search
API, with the continuation flag and the informational quota fields. -/
structure QuestionResponse where
  items : List Items
  hasMore : Bool
  quotaMax : Int
  quotaRemaining : Int
deriving DecidableEq

/-- The three error kinds a run can surface: the rate-limiter wait was
cancelled (line 56-58), the network call itself failed (line 65-68), or the
body could not be decompressed or decoded (lines 72-82). -/
inductive RunError where
  | rateLimitCancelled
  | transportError
  | decodeError
deriving DecidableEq

/-- A Go context, reduced to the one observable the code can hit: whether it
is cancelled. context.Background() is never cancelled. -/
structure Context where
  cancelled : Bool
deriving DecidableEq

/-- context.Background() (src/main.go line 54): a fresh, never-cancelled
context created on every invocation of Do. -/
def contextBackground : Context := { cancelled := false }

/-- Modelled from the documented contract of rate.Limiter.Wait used at
src/main.go line 56 (spec section 4.1): the call blocks until a token is
available and fails only when the given context is cancelled first. The
limiter of this program has burst 30 and n = 1 per call (line 121), so the
burst-exceeded error of the library cannot occur and cancellation is the only
error source. -/
def limiterWait (ctx : Context) : Except RunError Unit :=
  if ctx.cancelled then Except.error RunError.rateLimitCancelled else Except.ok ()

/-- What the body of one HTTP response does when the code reads it: the gzip
reader fails to open it (line 72-75), the JSON decoder rejects it (line
80-82), or it decodes to a QuestionResponse. -/
inductive BodyOutcome where
  | gzipErr
  | jsonErr
  | decoded (qr : QuestionResponse)
deriving DecidableEq

/-- The environment of one call to c.client.Do (line 65): either the network
call itself returns an error, or it completes with a status code and a body. -/
inductive NetOutcome where
  | netErr
  | response (statusCode : Nat) (body : BodyOutcome)
deriving DecidableEq

/-- One invocation of RLHTTPClient.Do up to JSON decoding (src/main.go lines
54-82): wait on the rate limiter with a fresh background context, perform the
network call, open the gzip reader and decode the body. The source never
inspects resp.StatusCode: the status argument of a completed response is
ignored. -/
def fetchStep (net : NetOutcome) : Except RunError QuestionResponse :=
  match limiterWait contextBackground with
  | Except.error e => Except.error e
  | Except.ok _ =>
    match net with
    | NetOutcome.netErr => Except.error RunError.transportError
    | NetOutcome.response _statusCode body =>
      match body with
      | BodyOutcome.gzipErr => Except.error RunError.decodeError
      | BodyOutcome.jsonErr => Except.error RunError.decodeError
      | BodyOutcome.decoded qr => Except.ok qr

/-- The filter loop (src/main.go lines 84-90): keep an item exactly when its
IsAnswered flag is false. -/
def filterUnanswered (l : List Items) : List Items :=
  List.filter (fun item => !item.isAnswered) l

/-- The ordering used by the sort at src/main.go lines 94-96: the less
function of sort.Slice is ViewCount i greater than ViewCount j, so the sorted
slice is descending by view count. -/
def descByViews (a b : Items) : Prop := b.viewCount ≤ a.viewCount

instance : DecidableRel descByViews := fun a b => Int.decLe b.viewCount a.viewCount

instance : IsTotal Items descByViews :=
  ⟨fun a b => Int.le_total b.viewCount a.viewCount⟩

instance : IsTrans Items descByViews :=
  ⟨fun _ _ _ h1 h2 => le_trans h2 h1⟩

/-- sort.Slice at src/main.go lines 94-96. Go uses an unspecified, unstable
sorting algorithm; we model it with insertion sort, which produces the same
result whenever view counts are distinct (the order among equal view counts
is unspecified in the source). -/
def sortByViews (l : List Items) : List Items :=
  List.insertionSort descByViews l

/-- The merge at src/main.go lines 84-100: concatenate the filtered page items
with the current top5, sort descending by view count, and overwrite top5 with
the first five elements ONLY when the candidate list has more than five
elements; otherwise top5 is left as it was and the filtered page items are
dropped. -/
def mergeStep (top5 : List Items) (pageItems : List Items) : List Items :=
  let items := filterUnanswered pageItems
  let items2 := items ++ top5
  let items3 := sortByViews items2
  if items3.length > 5 then List.take 5 items3 else top5

/-- RLHTTPClient.Do (src/main.go lines 48-107), run against the list of
per-page network outcomes. Each invocation waits on the rate limiter, performs
one fetch, filters and merges, and recurses exactly when the decoded page has
HasMore true (lines 102-104). The first component is the returned value, the
second counts the network calls performed: a cancelled rate-limiter wait
returns before the network call, so it contributes none. -/
def Do : List NetOutcome → List Items → Except RunError (List Items) × Nat
  | [], top5 => (Except.ok top5, 0)
  | net :: rest, top5 =>
    match fetchStep net with
    | Except.error RunError.rateLimitCancelled =>
        (Except.error RunError.rateLimitCancelled, 0)
    | Except.error RunError.transportError =>
        (Except.error RunError.transportError, 1)
    | Except.error RunError.decodeError =>
        (Except.error RunError.decodeError, 1)
    | Except.ok qr =>
      if qr.hasMore then
        ((Do rest (mergeStep top5 qr.items)).1,
         (Do rest (mergeStep top5 qr.items)).2 + 1)
      else (Except.ok (mergeStep top5 qr.items), 1)

/-- GetTop5Questions (src/main.go lines 120-145): start with an empty top5,
run Do from page 1, return the error unchanged on failure and the accumulated
top5 on success. URL and query-parameter construction and the final JSON
serialization are I/O plumbing outside the embedded core; the returned list is
the value the code would serialize. -/
def GetTop5Questions (pages : List NetOutcome) : Except RunError (List Items) :=
  (Do pages []).1

/-- A list sorted by view count descending, the order the spec requires of the
result. -/
def SortedByViews (l : List Items) : Prop := List.Sorted descByViews l

/-- A page request that completed, decoded, and carries HasMore = true. -/
def okWithMore (net : NetOutcome) : Prop :=
  ∃ s qr, net = NetOutcome.response s (BodyOutcome.decoded qr) ∧ qr.hasMore = true

/-- A page request that completed, decoded, and carries HasMore = false. -/
def okNoMore (net : NetOutcome) : Prop :=
  ∃ s qr, net = NetOutcome.response s (BodyOutcome.decoded qr) ∧ qr.hasMore = false

/-- An unanswered item with the given view count; the remaining fields do not
participate in any claim. -/
def mkItem (v : Int) : Items :=
  { isAnswered := false, viewCount := v, creationDate := 0, questionId := 0, link := "q" }

/-- A successfully decoded page with the given items and continuation flag. -/
def okPage (items : List Items) (hasMore : Bool) : NetOutcome :=
  NetOutcome.response 200
    (BodyOutcome.decoded
      { items := items, hasMore := hasMore, quotaMax := 300, quotaRemaining := 299 })

/-! Concrete pages used to exercise the claims. -/

/-- The single page of the C1 scenario: three unanswered items with view
counts 1, 2 and 3, and no further pages. -/
def c1Page : NetOutcome := okPage [mkItem 1, mkItem 2, mkItem 3] false

/-- A single final page with one unanswered item. -/
def c2Page : NetOutcome := okPage [mkItem 7] false

/-- Page 1 of the C3 scenario: seven unanswered items, more pages follow. -/
def c3Page1 : NetOutcome := okPage ([10, 50, 5, 20, 90, 3, 40].map mkItem) true

/-- Page 2 of the C3 scenario: two unanswered items, no further pages. -/
def c3Page2 : NetOutcome := okPage [mkItem 200, mkItem 1] false

/-- A single final page with six unanswered items. -/
def c4Page : NetOutcome := okPage ([1, 2, 3, 4, 5, 6].map mkItem) false

/-- The result the code produces on c4Page: the five largest view counts in
descending order. -/
def c4Res : List Items := [6, 5, 4, 3, 2].map mkItem

/-- A single final page with six unanswered items. -/
def c5Page : NetOutcome := okPage ([11, 12, 13, 14, 15, 16].map mkItem) false

/-- The result the code produces on c5Page. -/
def c5Res : List Items := [16, 15, 14, 13, 12].map mkItem

/-- A decoded response with no continuation. -/
def c6Qr : QuestionResponse :=
  { items := [mkItem 4], hasMore := false, quotaMax := 300, quotaRemaining := 299 }

/-- A final page built from c6Qr. -/
def c6Page : NetOutcome := NetOutcome.response 200 (BodyOutcome.decoded c6Qr)

/-- A decoded response announcing more pages. -/
def c7Qr : QuestionResponse :=
  { items := [mkItem 9], hasMore := true, quotaMax := 300, quotaRemaining := 299 }

/-- A successful page-1 fetch built from c7Qr. -/
def c7Page1 : NetOutcome := NetOutcome.response 200 (BodyOutcome.decoded c7Qr)

/-- An empty decoded response with no continuation. -/
def c8Qr : QuestionResponse :=
  { items := [], hasMore := false, quotaMax := 300, quotaRemaining := 299 }

/-- A page sitting after an error, which the loop must never reach. -/
def c8RestPage : NetOutcome := okPage [mkItem 2] false

/-! Helper lemmas about the sort, the merge and the loop. -/

theorem sortByViews_length (l : List Items) : (sortByViews l).length = l.length :=
  List.length_insertionSort descByViews l

theorem sortByViews_mem {a : Items} {l : List Items} : a ∈ sortByViews l ↔ a ∈ l :=
  List.mem_insertionSort descByViews

theorem sortByViews_sorted (l : List Items) : SortedByViews (sortByViews l) :=
  List.sorted_insertionSort descByViews l

theorem mem_filterUnanswered {a : Items} {l : List Items} :
    a ∈ filterUnanswered l ↔ a ∈ l ∧ a.isAnswered = false := by
  simp [filterUnanswered, List.mem_filter]

theorem mergeStep_of_le {top5 pageItems : List Items}
    (h : (filterUnanswered pageItems ++ top5).length ≤ 5) :
    mergeStep top5 pageItems = top5 := by
  unfold mergeStep
  rw [if_neg]
  rw [sortByViews_length]
  omega

theorem mergeStep_of_gt {top5 pageItems : List Items}
    (h : 5 < (filterUnanswered pageItems ++ top5).length) :
    mergeStep top5 pageItems = List.take 5 (sortByViews (filterUnanswered pageItems ++ top5)) := by
  unfold mergeStep
  rw [if_pos]
  rw [sortByViews_length]
  omega

theorem mergeStep_length_of_gt {top5 pageItems : List Items}
    (h : 5 < (filterUnanswered pageItems ++ top5).length) :
    (mergeStep top5 pageItems).length = 5 := by
  rw [mergeStep_of_gt h, List.length_take, sortByViews_length]
  omega

theorem mergeStep_length_le {top5 pageItems : List Items} (h : top5.length ≤ 5) :
    (mergeStep top5 pageItems).length ≤ 5 := by
  by_cases hlen : 5 < (filterUnanswered pageItems ++ top5).length
  · rw [mergeStep_length_of_gt hlen]
  · rw [mergeStep_of_le (by omega)]
    exact h

theorem mergeStep_zero_or_five {top5 pageItems : List Items}
    (h : top5.length = 0 ∨ top5.length = 5) :
    (mergeStep top5 pageItems).length = 0 ∨ (mergeStep top5 pageItems).length = 5 := by
  by_cases hlen : 5 < (filterUnanswered pageItems ++ top5).length
  · right
    exact mergeStep_length_of_gt hlen
  · rw [mergeStep_of_le (by omega)]
    exact h

theorem mergeStep_sorted {top5 : List Items} (pageItems : List Items)
    (h : SortedByViews top5) : SortedByViews (mergeStep top5 pageItems) := by
  by_cases hlen : 5 < (filterUnanswered pageItems ++ top5).length
  · rw [mergeStep_of_gt hlen]
    exact List.Pairwise.sublist (List.take_sublist 5 _)
      (sortByViews_sorted (filterUnanswered pageItems ++ top5))
  · rw [mergeStep_of_le (by omega)]
    exact h

theorem mergeStep_mem {x : Items} {top5 pageItems : List Items}
    (h : x ∈ mergeStep top5 pageItems) :
    (x ∈ pageItems ∧ x.isAnswered = false) ∨ x ∈ top5 := by
  by_cases hlen : 5 < (filterUnanswered pageItems ++ top5).length
  · rw [mergeStep_of_gt hlen] at h
    have hx : x ∈ sortByViews (filterUnanswered pageItems ++ top5) :=
      List.mem_of_mem_take h
    rw [sortByViews_mem, List.mem_append] at hx
    rcases hx with hx | hx
    · exact Or.inl (mem_filterUnanswered.mp hx)
    · exact Or.inr hx
  · rw [mergeStep_of_le (by omega)] at h
    exact Or.inr h

theorem Do_nil (top5 : List Items) : Do [] top5 = (Except.ok top5, 0) := rfl

theorem Do_cons_decoded (s : Nat) (qr : QuestionResponse) (rest : List NetOutcome)
    (top5 : List Items) :
    Do (NetOutcome.response s (BodyOutcome.decoded qr) :: rest) top5 =
      if qr.hasMore then
        ((Do rest (mergeStep top5 qr.items)).1,
         (Do rest (mergeStep top5 qr.items)).2 + 1)
      else (Except.ok (mergeStep top5 qr.items), 1) := rfl

theorem Do_cons_err (net : NetOutcome) (rest : List NetOutcome) (top5 : List Items)
    (e : RunError) (h : fetchStep net = Except.error e) :
    Do (net :: rest) top5 = (Except.error e, 1) := by
  cases net with
  | netErr =>
    have he : RunError.transportError = e := by
      simpa [fetchStep, limiterWait, contextBackground] using h
    subst he
    rfl
  | response s body =>
    cases body with
    | gzipErr =>
      have he : RunError.decodeError = e := by
        simpa [fetchStep, limiterWait, contextBackground] using h
      subst he
      rfl
    | jsonErr =>
      have he : RunError.decodeError = e := by
        simpa [fetchStep, limiterWait, contextBackground] using h
      subst he
      rfl
    | decoded qr =>
      simp [fetchStep, limiterWait, contextBackground] at h

theorem Do_ok_inv (P : List Items → Prop)
    (hstep : ∀ t p, P t → P (mergeStep t p)) :
    ∀ pages top5, P top5 → ∀ res, (Do pages top5).1 = Except.ok res → P res := by
  intro pages
  induction pages with
  | nil =>
    intro top5 hP res h
    rw [Do_nil] at h
    simp at h
    rw [← h]
    exact hP
  | cons net rest ih =>
    intro top5 hP res h
    cases net with
    | netErr =>
      rw [Do_cons_err NetOutcome.netErr rest top5 RunError.transportError rfl] at h
      simp at h
    | response s body =>
      cases body with
      | gzipErr =>
        rw [Do_cons_err (NetOutcome.response s BodyOutcome.gzipErr) rest top5 RunError.decodeError rfl] at h
        simp at h
      | jsonErr =>
        rw [Do_cons_err (NetOutcome.response s BodyOutcome.jsonErr) rest top5 RunError.decodeError rfl] at h
        simp at h
      | decoded qr =>
        rw [Do_cons_decoded] at h
        by_cases hm : qr.hasMore
        · rw [if_pos hm] at h
          exact ih (mergeStep top5 qr.items) (hstep top5 qr.items hP) res h
        · rw [if_neg hm] at h
          simp at h
          rw [← h]
          exact hstep top5 qr.items hP

theorem Do_first_error :
    ∀ (front : List NetOutcome) (net : NetOutcome) (rest : List NetOutcome)
      (top5 : List Items) (e : RunError),
      (∀ x ∈ front, okWithMore x) → fetchStep net = Except.error e →
      (Do (front ++ net :: rest) top5).1 = Except.error e := by
  intro front
  induction front with
  | nil =>
    intro net rest top5 e _ herr
    rw [List.nil_append, Do_cons_err net rest top5 e herr]
  | cons x front ih =>
    intro net rest top5 e hfront herr
    obtain ⟨s, qr, hx, hm⟩ := hfront x (List.mem_cons_self x front)
    subst hx
    rw [List.cons_append, Do_cons_decoded, if_pos hm]
    exact ih net rest (mergeStep top5 qr.items) e
      (fun y hy => hfront y (List.mem_cons_of_mem _ hy)) herr

theorem Do_result_cases :
    ∀ (pages : List NetOutcome) (top5 : List Items),
      (∃ res, (Do pages top5).1 = Except.ok res)
        ∨ (Do pages top5).1 = Except.error RunError.transportError
        ∨ (Do pages top5).1 = Except.error RunError.decodeError := by
  intro pages
  induction pages with
  | nil =>
    intro top5
    exact Or.inl ⟨top5, rfl⟩
  | cons net rest ih =>
    intro top5
    cases net with
    | netErr =>
      right
      left
      rw [Do_cons_err NetOutcome.netErr rest top5 RunError.transportError rfl]
    | response s body =>
      cases body with
      | gzipErr =>
        right
        right
        rw [Do_cons_err (NetOutcome.response s BodyOutcome.gzipErr) rest top5
              RunError.decodeError rfl]
      | jsonErr =>
        right
        right
        rw [Do_cons_err (NetOutcome.response s BodyOutcome.jsonErr) rest top5
              RunError.decodeError rfl]
      | decoded qr =>
        rw [Do_cons_decoded]
        by_cases hm : qr.hasMore
        · rw [if_pos hm]
          simpa using ih (mergeStep top5 qr.items)
        · rw [if_neg hm]
          exact Or.inl ⟨mergeStep top5 qr.items, rfl⟩

/-! The claims. -/

/-- C1: the claim asserts that an error-free run returns min(5, number of
unanswered items) results, and in particular that the single page with three
unanswered items of view counts 1, 2, 3 yields the three of them in order
3, 2, 1. The code does not satisfy this: the merge at src/main.go lines
98-100 only writes to top5 when the combined candidate list exceeds five
elements, so this run returns the empty list although min 5 3 = 3. The code
contradicts its own documentation at line 119, which promises the top 5
questions by view count. -/
theorem c1_single_page_three_items_returns_empty :
    GetTop5Questions [c1Page] = Except.ok [] ∧ min 5 3 = 3 :=
  ⟨rfl, rfl⟩

/-- C2: after every page processed by Do, the accumulated top5 has length
either zero or exactly five. The merge leaves top5 unchanged (dropping the
filtered page items) whenever the combined candidate list has at most five
elements, and otherwise rewrites it to exactly five elements; consequently
every accumulator whose length starts at zero or five keeps that property,
and so does the final result of a run started from the empty list. -/
theorem c2_top5_length_zero_or_five :
    (∀ top5 pageItems : List Items,
        (filterUnanswered pageItems ++ top5).length ≤ 5 →
        mergeStep top5 pageItems = top5)
  ∧ (∀ top5 pageItems : List Items,
        5 < (filterUnanswered pageItems ++ top5).length →
        (mergeStep top5 pageItems).length = 5)
  ∧ (∀ (pages : List NetOutcome) (top5 res : List Items),
        (top5.length = 0 ∨ top5.length = 5) →
        (Do pages top5).1 = Except.ok res →
        res.length = 0 ∨ res.length = 5) := by
  refine ⟨?_, ?_, ?_⟩
  · intro top5 pageItems h
    exact mergeStep_of_le h
  · intro top5 pageItems h
    exact mergeStep_length_of_gt h
  · intro pages top5 res h hres
    exact Do_ok_inv (fun t => t.length = 0 ∨ t.length = 5)
      (fun t p hp => mergeStep_zero_or_five hp) pages top5 h res hres

/-- Witness for C2 at a concrete run: one final page with a single unanswered
item, started from the empty accumulator, whose result is again empty. -/
theorem c2_top5_length_zero_or_five_witness :
    ((([] : List Items).length = 0 ∨ ([] : List Items).length = 5)
        ∧ (Do [c2Page] ([] : List Items)).1 = Except.ok ([] : List Items))
      ∧ (([] : List Items).length = 0 ∨ ([] : List Items).length = 5) :=
  ⟨⟨Or.inl rfl, rfl⟩,
   c2_top5_length_zero_or_five.2.2 [c2Page] [] [] (Or.inl rfl) rfl⟩

/-- C3: the two-page scenario of the spec. Page 1 carries unanswered items
with view counts 10, 50, 5, 20, 90, 3, 40 and announces more pages; page 2
carries 200 and 1 and is final. The run returns exactly the view counts
200, 90, 50, 40, 20 in that order. -/
theorem c3_two_page_scenario :
    (GetTop5Questions [c3Page1, c3Page2]).map (fun l => l.map Items.viewCount)
      = Except.ok [200, 90, 50, 40, 20] := rfl

/-- C4: the capacity and sort invariants. A merge never grows the accumulator
beyond five elements and always returns a list sorted by view count
descending, and every successful run whose starting accumulator satisfies
both invariants ends in a result satisfying both. -/
theorem c4_sort_and_capacity_invariants :
    (∀ top5 pageItems : List Items,
        top5.length ≤ 5 → (mergeStep top5 pageItems).length ≤ 5)
  ∧ (∀ top5 pageItems : List Items,
        SortedByViews top5 → SortedByViews (mergeStep top5 pageItems))
  ∧ (∀ (pages : List NetOutcome) (top5 res : List Items),
        top5.length ≤ 5 → SortedByViews top5 →
        (Do pages top5).1 = Except.ok res →
        res.length ≤ 5 ∧ SortedByViews res) := by
  refine ⟨fun top5 pageItems h => mergeStep_length_le h,
          fun top5 pageItems h => mergeStep_sorted pageItems h, ?_⟩
  intro pages top5 res h1 h2 hres
  exact Do_ok_inv (fun t => t.length ≤ 5 ∧ SortedByViews t)
    (fun t p hp => ⟨mergeStep_length_le hp.1, mergeStep_sorted p hp.2⟩)
    pages top5 ⟨h1, h2⟩ res hres

/-- Witness for C4 at a concrete run: a final page with six unanswered items,
whose result keeps the five largest view counts in descending order. -/
theorem c4_sort_and_capacity_invariants_witness :
    (([] : List Items).length ≤ 5 ∧ SortedByViews []
        ∧ (Do [c4Page] ([] : List Items)).1 = Except.ok c4Res)
      ∧ (c4Res.length ≤ 5 ∧ SortedByViews c4Res) :=
  ⟨⟨by decide, List.sorted_nil, rfl⟩,
   c4_sort_and_capacity_invariants.2.2 [c4Page] [] c4Res (by decide)
     List.sorted_nil rfl⟩

/-- C5: the filter keeps an item exactly when its IsAnswered flag is false,
and consequently every item of the result of any successful run has
IsAnswered false. -/
theorem c5_filter_keeps_iff_unanswered :
    (∀ (item : Items) (l : List Items),
        item ∈ filterUnanswered l ↔ item ∈ l ∧ item.isAnswered = false)
  ∧ (∀ (pages : List NetOutcome) (res : List Items) (item : Items),
        GetTop5Questions pages = Except.ok res → item ∈ res →
        item.isAnswered = false) := by
  refine ⟨fun item l => mem_filterUnanswered, ?_⟩
  intro pages res item hres hmem
  have hall := Do_ok_inv (fun t => ∀ x ∈ t, x.isAnswered = false)
    (fun t p hp x hx => by
      rcases mergeStep_mem hx with ⟨_, hf⟩ | hb
      · exact hf
      · exact hp x hb)
    pages [] (by simp) res hres
  exact hall item hmem

/-- Witness for C5 at a concrete run: the top item of the c5Page run is
unanswered. -/
theorem c5_filter_keeps_iff_unanswered_witness :
    (GetTop5Questions [c5Page] = Except.ok c5Res ∧ mkItem 16 ∈ c5Res)
      ∧ (mkItem 16).isAnswered = false :=
  ⟨⟨rfl, by decide⟩,
   c5_filter_keeps_iff_unanswered.2 [c5Page] c5Res (mkItem 16) rfl (by decide)⟩

/-- C6: each invocation of Do performs exactly one network fetch and recurses
exactly when the decoded page announces more pages, so an error-free run over
pages that all continue, followed by one final page, performs one fetch per
traversed page: the pages before the final one plus the final page itself,
whatever sits behind the final page. With no leading pages this is exactly
one fetch. -/
theorem c6_fetch_count_until_no_more :
    ∀ (front : List NetOutcome) (lastp : NetOutcome) (rest : List NetOutcome)
      (top5 : List Items),
      (∀ x ∈ front, okWithMore x) → okNoMore lastp →
      (Do (front ++ lastp :: rest) top5).2 = front.length + 1 := by
  intro front
  induction front with
  | nil =>
    intro lastp rest top5 _ hlast
    obtain ⟨s, qr, rfl, hm⟩ := hlast
    rw [List.nil_append, Do_cons_decoded, if_neg (by simp [hm])]
    rfl
  | cons x front ih =>
    intro lastp rest top5 hfront hlast
    obtain ⟨s, qr, hx, hm⟩ := hfront x (List.mem_cons_self x front)
    subst hx
    have hrec := ih lastp rest (mergeStep top5 qr.items)
      (fun y hy => hfront y (List.mem_cons_of_mem _ hy)) hlast
    rw [List.cons_append, Do_cons_decoded, if_pos hm]
    simp [hrec]

/-- Witness for C6: page 1 is already final, so exactly one fetch occurs. -/
theorem c6_fetch_count_until_no_more_witness :
    ((∀ x ∈ ([] : List NetOutcome), okWithMore x) ∧ okNoMore c6Page)
      ∧ (Do (([] : List NetOutcome) ++ c6Page :: []) ([] : List Items)).2
          = ([] : List NetOutcome).length + 1 :=
  ⟨⟨fun x hx => absurd hx (List.not_mem_nil x), ⟨200, c6Qr, rfl, rfl⟩⟩,
   c6_fetch_count_until_no_more [] c6Page [] []
     (fun x hx => absurd hx (List.not_mem_nil x)) ⟨200, c6Qr, rfl, rfl⟩⟩

/-- C7: every error at any page is fatal. If the pages before the failing one
all decoded and continued, and the failing page produces any error (the
rate-limit wait, the network call or the decoding), then Do stops there and
returns exactly that error, and GetTop5Questions surfaces it with no result
value at all, not even the accumulated partial top five. -/
theorem c7_any_error_is_fatal :
    ∀ (front : List NetOutcome) (net : NetOutcome) (rest : List NetOutcome)
      (top5 : List Items) (e : RunError),
      (∀ x ∈ front, okWithMore x) → fetchStep net = Except.error e →
      (Do (front ++ net :: rest) top5).1 = Except.error e
        ∧ GetTop5Questions (front ++ net :: rest) = Except.error e := by
  intro front net rest top5 e hfront herr
  exact ⟨Do_first_error front net rest top5 e hfront herr,
         Do_first_error front net rest [] e hfront herr⟩

/-- Witness for C7, the scenario of the spec: page 1 succeeds and continues,
the fetch of page 2 fails at the network level, and the run returns the
transport error with no result. -/
theorem c7_any_error_is_fatal_witness :
    ((∀ x ∈ [c7Page1], okWithMore x)
        ∧ fetchStep NetOutcome.netErr = Except.error RunError.transportError)
      ∧ ((Do ([c7Page1] ++ NetOutcome.netErr :: []) ([] : List Items)).1
            = Except.error RunError.transportError
          ∧ GetTop5Questions ([c7Page1] ++ NetOutcome.netErr :: [])
            = Except.error RunError.transportError) :=
  ⟨⟨fun x hx => by
      rw [List.mem_singleton] at hx
      subst hx
      exact ⟨200, c7Qr, rfl, rfl⟩, rfl⟩,
   c7_any_error_is_fatal [c7Page1] NetOutcome.netErr [] [] RunError.transportError
     (fun x hx => by
       rw [List.mem_singleton] at hx
       subst hx
       exact ⟨200, c7Qr, rfl, rfl⟩) rfl⟩

/-- C8 counterexample: a network round-trip that completes with the non-2xx
status 500 does NOT surface as a transport error. The source never reads
resp.StatusCode, so when the body of the 500 response still decodes, the
fetch succeeds and the whole run even returns a result. -/
theorem c8_counterexample_status_ignored :
    fetchStep (NetOutcome.response 500 (BodyOutcome.decoded c8Qr)) = Except.ok c8Qr
      ∧ GetTop5Questions [NetOutcome.response 500 (BodyOutcome.decoded c8Qr)]
          = Except.ok [] :=
  ⟨rfl, rfl⟩

/-- C8 amended: the status code of a completed response is never inspected;
only a failure of the network call itself surfaces as a transport error,
distinct from the decode error produced by an undecodable body, and in either
case the loop stops after that single fetch, with no retry. -/
theorem c8_amended_error_taxonomy :
    (∀ (s : Nat) (body : BodyOutcome),
        fetchStep (NetOutcome.response s body)
          = fetchStep (NetOutcome.response 200 body))
  ∧ fetchStep NetOutcome.netErr = Except.error RunError.transportError
  ∧ (∀ s : Nat,
        fetchStep (NetOutcome.response s BodyOutcome.gzipErr)
            = Except.error RunError.decodeError
          ∧ fetchStep (NetOutcome.response s BodyOutcome.jsonErr)
            = Except.error RunError.decodeError)
  ∧ (∀ (net : NetOutcome) (rest : List NetOutcome) (top5 : List Items)
        (e : RunError),
        fetchStep net = Except.error e →
        Do (net :: rest) top5 = (Except.error e, 1)) :=
  ⟨fun _ _ => rfl, rfl, fun _ => ⟨rfl, rfl⟩,
   fun net rest top5 e h => Do_cons_err net rest top5 e h⟩

/-- Witness for the amended C8: a network failure on page 1 is a transport
error and the page sitting behind it is never fetched. -/
theorem c8_amended_error_taxonomy_witness :
    fetchStep NetOutcome.netErr = Except.error RunError.transportError
      ∧ Do (NetOutcome.netErr :: [c8RestPage]) ([] : List Items)
          = (Except.error RunError.transportError, 1) :=
  ⟨rfl,
   c8_amended_error_taxonomy.2.2.2 NetOutcome.netErr [c8RestPage] []
     RunError.transportError rfl⟩

/-- C10: the rate-limiter wait always receives a fresh context.Background(),
which is never cancelled, so the wait succeeds in every invocation; a fetch
step can only end in a transport error, a decode error or a decoded page, and
a whole run can only succeed or fail with one of those two errors — a
rate-limit-cancelled failure is unreachable. -/
theorem c10_cancellation_unreachable :
    limiterWait contextBackground = Except.ok ()
  ∧ (∀ net : NetOutcome,
        fetchStep net = Except.error RunError.transportError
          ∨ fetchStep net = Except.error RunError.decodeError
          ∨ ∃ qr, fetchStep net = Except.ok qr)
  ∧ (∀ pages : List NetOutcome,
        (∃ res, GetTop5Questions pages = Except.ok res)
          ∨ GetTop5Questions pages = Except.error RunError.transportError
          ∨ GetTop5Questions pages = Except.error RunError.decodeError) := by
  refine ⟨rfl, ?_, ?_⟩
  · intro net
    cases net with
    | netErr => exact Or.inl rfl
    | response s body =>
      cases body with
      | gzipErr => exact Or.inr (Or.inl rfl)
      | jsonErr => exact Or.inr (Or.inl rfl)
      | decoded qr => exact Or.inr (Or.inr ⟨qr, rfl⟩)
  · intro pages
    exact Do_result_cases pages []
